import Mathlib

/-!
Shallow embedding of `asteroid/engine/system.py`: the class `System`, a thin
adapter between a user's model / optimizer / loss object / data loaders and
the pytorch-lightning training loop.

Modelling choices:
* Python runtime values are the inductive type `PyVal`.  The only numeric
  values the adapter computes with are scalar loss tensors; `torch` scalar
  tensors are modelled as exact rationals (constructor `PyVal.tensor`).
* Python exceptions are `PyErr`; fallible methods return `Except PyErr _`.
* Each method of the class is translated in state-passing style
  `System → args → (result × System)` (inside `Except` when the method can
  raise), so that the absence of field mutation is provable: the source
  assigns fields only in `__init__`, hence every method hands back the
  state it was given.
* `self.loss_class` is used by the source only through its `compute` method;
  the embedding stores that single capability in the field `loss_compute`.
  Likewise `self.model` is used both as a callable (`self.model(inputs)`,
  which in torch dispatches to `forward`) and via `self.model.forward`;
  both are the single function field `model`.
-/

/-- Python runtime values, as far as this adapter inspects them: `None`,
integers, strings, scalar tensors (exact rationals), dictionaries with
string keys, lists and tuples. -/
inductive PyVal where
  | none
  | int (n : Int)
  | str (s : String)
  | tensor (q : ℚ)
  | dict (entries : List (String × PyVal))
  | list (xs : List PyVal)
  | tuple (xs : List PyVal)

/-- Python exceptions raised (or propagated) by the embedded code. -/
inductive PyErr where
  | valueError (msg : String)
  | keyError (k : String)
  | typeError (msg : String)
  | runtimeError (msg : String)
deriving Repr, DecidableEq

/-- The adapter's stored fields, in the order of `System.__init__`:
`model, optimizer, loss_class, train_loader, val_loader=None,
scheduler=None, config=None`.  `loss_compute` embeds
`self.loss_class.compute(targets, est_targets, infos=infos)` with its three
arguments positional in that order. -/
structure System where
  model : PyVal → PyVal
  optimizer : PyVal
  loss_compute : PyVal → PyVal → PyVal → PyVal
  train_loader : PyVal
  val_loader : PyVal := PyVal.none
  scheduler : PyVal := PyVal.none
  config : PyVal := PyVal.none

/-- `System.forward`: `return self.model.forward(*args, **kwargs)`. -/
def forward (s : System) (args : PyVal) : PyVal × System :=
  (s.model args, s)

/-- `System.unpack_data`: length-2 batches unpack to
`(inputs, targets, dict())`, length-3 batches unpack their three elements
in order, anything else raises
`ValueError('Expected DataLoader output to have 2 or 3 elements. Received
{} elements'.format(len(data)))`. -/
def unpack_data (s : System) (data : List PyVal) :
    Except PyErr ((PyVal × PyVal × PyVal) × System) :=
  match data with
  | [inputs, targets] => Except.ok ((inputs, targets, PyVal.dict []), s)
  | [inputs, targets, infos] => Except.ok ((inputs, targets, infos), s)
  | _ => Except.error (PyErr.valueError
      ("Expected DataLoader output to have 2 or 3 elements. Received " ++
        toString data.length ++ " elements"))

/-- `System.common_step`: unpack the batch, forward the inputs through the
model, call `self.loss_class.compute(targets, est_targets, infos=infos)`
and return the loss.  `batch_nb` is unused, as in the source. -/
def common_step (s : System) (batch : List PyVal) (_batch_nb : Int) :
    Except PyErr (PyVal × System) := do
  let ((inputs, targets, infos), s₁) ← unpack_data s batch
  let est_targets := s₁.model inputs
  let loss := s₁.loss_compute targets est_targets infos
  return (loss, s₁)

/-- `System.training_step`: `loss = self.common_step(batch, batch_nb)`,
then `return {'loss': loss, 'log': {'train_loss': loss}}`.  No backward
pass or optimizer step appears in the source. -/
def training_step (s : System) (batch : List PyVal) (batch_nb : Int) :
    Except PyErr (PyVal × System) := do
  let (loss, s₁) ← common_step s batch batch_nb
  let tensorboard_logs := PyVal.dict [("train_loss", loss)]
  return (PyVal.dict [("loss", loss), ("log", tensorboard_logs)], s₁)

/-- `System.validation_step`: `return {'val_loss': self.common_step(...)}`. -/
def validation_step (s : System) (batch : List PyVal) (batch_nb : Int) :
    Except PyErr (PyVal × System) := do
  let (loss, s₁) ← common_step s batch batch_nb
  return (PyVal.dict [("val_loss", loss)], s₁)

/-- Python subscript `v[k]` for string keys: a `dict` yields the value
stored under `k` or raises `KeyError`; any other value raises `TypeError`. -/
def subscript (v : PyVal) (k : String) : Except PyErr PyVal :=
  match v with
  | PyVal.dict d =>
    match d.find? (fun p => p.1 == k) with
    | some p => Except.ok p.2
    | Option.none => Except.error (PyErr.keyError k)
  | _ => Except.error (PyErr.typeError "object is not subscriptable")

/-- The list comprehension `[x['val_loss'] for x in outputs]` evaluated left
to right, propagating the first exception. -/
def lookup_losses (outputs : List PyVal) : Except PyErr (List PyVal) :=
  match outputs with
  | [] => Except.ok []
  | x :: xs => do
    let v ← subscript x "val_loss"
    let vs ← lookup_losses xs
    return (v :: vs)

/-- Reading a scalar tensor's value; anything else is a `TypeError` (torch
`stack` rejects non-tensor elements). -/
def as_scalar : PyVal → Except PyErr ℚ
  | PyVal.tensor q => Except.ok q
  | _ => Except.error (PyErr.typeError "expected Tensor")

/-- Elementwise scalar extraction, first failure propagated. -/
def to_scalars : List PyVal → Except PyErr (List ℚ)
  | [] => Except.ok []
  | x :: xs => do
    let q ← as_scalar x
    let qs ← to_scalars xs
    return (q :: qs)

/-- `torch.stack` on a list of scalar tensors: raises `RuntimeError` on an
empty list, otherwise produces the 1-D tensor of the scalars. -/
def torch_stack (xs : List PyVal) : Except PyErr (List ℚ) :=
  match xs with
  | [] => Except.error (PyErr.runtimeError "stack expects a non-empty TensorList")
  | _ => to_scalars xs

/-- `Tensor.mean()` of a 1-D tensor: the arithmetic mean of its entries. -/
def torch_mean (xs : List ℚ) : ℚ := xs.sum / (xs.length : ℚ)

/-- `System.validation_end`:
`avg_loss = torch.stack([x['val_loss'] for x in outputs]).mean()`, then
`return {'val_loss': avg_loss, 'log': {'val_loss': avg_loss},
'progress_bar': {'val_loss': avg_loss}}` where both logging entries are the
same dict `tensorboard_logs`. -/
def validation_end (s : System) (outputs : List PyVal) :
    Except PyErr (PyVal × System) := do
  let vs ← lookup_losses outputs
  let stacked ← torch_stack vs
  let avg_loss := PyVal.tensor (torch_mean stacked)
  let tensorboard_logs := PyVal.dict [("val_loss", avg_loss)]
  return (PyVal.dict [("val_loss", avg_loss), ("log", tensorboard_logs),
    ("progress_bar", tensorboard_logs)], s)

/-- `System.configure_optimizers`: `(self.optimizer, self.scheduler)` when
`self.scheduler is not None`, otherwise `self.optimizer` alone. -/
def configure_optimizers (s : System) : PyVal × System :=
  match s.scheduler with
  | PyVal.none => (s.optimizer, s)
  | _ => (PyVal.tuple [s.optimizer, s.scheduler], s)

/-- `System.train_dataloader`: returns the stored training loader. -/
def train_dataloader (s : System) : PyVal × System :=
  (s.train_loader, s)

/-- `System.val_dataloader`: returns the stored validation loader. -/
def val_dataloader (s : System) : PyVal × System :=
  (s.val_loader, s)

/-- Python dict assignment `d[k] = v` on an association list whose keys are
unique: replace the value stored under `k` if present, otherwise append the
new entry at the end (Python dicts preserve insertion order). -/
def dict_set (d : List (String × PyVal)) (k : String) (v : PyVal) :
    List (String × PyVal) :=
  match d with
  | [] => [(k, v)]
  | p :: rest =>
    if p.1 == k then (k, v) :: rest else p :: dict_set rest k v

/-- Dict lookup returning `Option`, used to state properties of
`on_save_checkpoint`. -/
def dict_get? (d : List (String × PyVal)) (k : String) : Option PyVal :=
  (d.find? (fun p => p.1 == k)).map Prod.snd

/-- `System.on_save_checkpoint`:
`checkpoint['training_config'] = self.config; return checkpoint`. -/
def on_save_checkpoint (s : System) (checkpoint : List (String × PyVal)) :
    List (String × PyVal) × System :=
  (dict_set checkpoint "training_config" s.config, s)

/-- `System.on_batch_start`: `pass` (returns `None`). -/
def on_batch_start (s : System) (_batch : PyVal) : PyVal × System :=
  (PyVal.none, s)

/-- `System.on_batch_end`: `pass`. -/
def on_batch_end (s : System) : PyVal × System :=
  (PyVal.none, s)

/-- `System.on_epoch_start`: `pass`. -/
def on_epoch_start (s : System) : PyVal × System :=
  (PyVal.none, s)

/-- `System.on_epoch_end`: `pass`. -/
def on_epoch_end (s : System) : PyVal × System :=
  (PyVal.none, s)

/-- `System.tng_dataloader`: deprecated dead stub, body `pass`. -/
def tng_dataloader (s : System) : PyVal × System :=
  (PyVal.none, s)

/-- A concrete adapter instance used to witness the theorems: identity
model, a loss that returns the estimated targets, no scheduler. -/
def sys0 : System where
  model := fun v => v
  optimizer := PyVal.int 7
  loss_compute := fun _targets est _infos => est
  train_loader := PyVal.int 1
  val_loader := PyVal.none
  scheduler := PyVal.none
  config := PyVal.str "cfg"

/-- A concrete adapter instance with a scheduler supplied. -/
def sys1 : System where
  model := fun v => v
  optimizer := PyVal.int 7
  loss_compute := fun _targets est _infos => est
  train_loader := PyVal.int 1
  val_loader := PyVal.int 2
  scheduler := PyVal.int 3
  config := PyVal.none

/-- C1: for every batch that `unpack_data` accepts, `common_step` returns
exactly `loss_class.compute(targets, model(inputs), infos)` for the
unpacked triple `(inputs, targets, infos)`, the auxiliary mapping being the
third argument of `loss_compute` (the `infos` keyword of the source), with
the adapter state unchanged. -/
theorem common_step_is_compute_of_forward (s : System) (batch : List PyVal)
    (i : Int) (inputs targets infos : PyVal)
    (h : unpack_data s batch = Except.ok ((inputs, targets, infos), s)) :
    common_step s batch i =
      Except.ok (s.loss_compute targets (s.model inputs) infos, s) := by
  unfold common_step
  rw [h]
  rfl

/-- Witness for C1 at a concrete length-2 batch. -/
theorem common_step_is_compute_of_forward_witness :
    unpack_data sys0 [PyVal.int 1, PyVal.int 2] =
      Except.ok ((PyVal.int 1, PyVal.int 2, PyVal.dict []), sys0) ∧
    common_step sys0 [PyVal.int 1, PyVal.int 2] 0 =
      Except.ok (sys0.loss_compute (PyVal.int 2) (sys0.model (PyVal.int 1))
        (PyVal.dict []), sys0) :=
  ⟨rfl, common_step_is_compute_of_forward sys0 [PyVal.int 1, PyVal.int 2] 0
    (PyVal.int 1) (PyVal.int 2) (PyVal.dict []) rfl⟩

/-- C2: a length-2 batch unpacks to its two elements plus an empty
auxiliary mapping; a length-3 batch unpacks to its three elements in
order, the third exposed as the auxiliary mapping. -/
theorem unpack_data_two_and_three (s : System) (a b c : PyVal) :
    unpack_data s [a, b] = Except.ok ((a, b, PyVal.dict []), s) ∧
    unpack_data s [a, b, c] = Except.ok ((a, b, c), s) :=
  ⟨rfl, rfl⟩

/-- C3: `unpack_data` fails exactly on batches whose length is neither 2
nor 3, and then raises the malformed-batch `ValueError` reporting the
observed length. -/
theorem unpack_data_fails_iff_bad_length (s : System) (data : List PyVal) :
    ((∃ e, unpack_data s data = Except.error e) ↔
      (data.length ≠ 2 ∧ data.length ≠ 3)) ∧
    (data.length ≠ 2 ∧ data.length ≠ 3 →
      unpack_data s data = Except.error (PyErr.valueError
        ("Expected DataLoader output to have 2 or 3 elements. Received " ++
          toString data.length ++ " elements"))) := by
  rcases data with _ | ⟨a, _ | ⟨b, _ | ⟨c, _ | ⟨d, rest⟩⟩⟩⟩
  · exact ⟨⟨fun _ => by simp, fun _ => ⟨_, rfl⟩⟩, fun _ => rfl⟩
  · exact ⟨⟨fun _ => by simp, fun _ => ⟨_, rfl⟩⟩, fun _ => rfl⟩
  · refine ⟨⟨fun he => ?_, fun h => absurd rfl h.1⟩, fun h => absurd rfl h.1⟩
    obtain ⟨e, he⟩ := he
    exact absurd he (by simp [unpack_data])
  · refine ⟨⟨fun he => ?_, fun h => absurd rfl h.2⟩, fun h => absurd rfl h.2⟩
    obtain ⟨e, he⟩ := he
    exact absurd he (by simp [unpack_data])
  · refine ⟨⟨fun _ => ⟨?_, ?_⟩, fun _ => ⟨_, rfl⟩⟩, fun _ => rfl⟩
    · simp [List.length_cons]
    · simp [List.length_cons]

/-- Witness for C3 at the empty batch. -/
theorem unpack_data_fails_iff_bad_length_witness :
    (([] : List PyVal).length ≠ 2 ∧ ([] : List PyVal).length ≠ 3) ∧
    unpack_data sys0 [] = Except.error (PyErr.valueError
      ("Expected DataLoader output to have 2 or 3 elements. Received " ++
        toString ([] : List PyVal).length ++ " elements")) :=
  ⟨by decide, (unpack_data_fails_iff_bad_length sys0 []).2 (by decide)⟩

/-- C5: whenever `common_step` succeeds with some loss, `training_step`
returns the structure `{loss, log}` whose loss field is that loss and
whose log mapping is exactly the single entry `{'train_loss': loss}`; the
adapter state is handed back unchanged — no backward pass or optimizer
update occurs. -/
theorem training_step_is_common_step_with_log (s : System)
    (batch : List PyVal) (i : Int) (loss : PyVal)
    (h : common_step s batch i = Except.ok (loss, s)) :
    training_step s batch i = Except.ok
      (PyVal.dict [("loss", loss), ("log", PyVal.dict [("train_loss", loss)])],
        s) := by
  unfold training_step
  rw [h]
  rfl

/-- Witness for C5 at a concrete length-2 batch. -/
theorem training_step_is_common_step_with_log_witness :
    common_step sys0 [PyVal.int 1, PyVal.int 2] 0 =
      Except.ok (PyVal.int 1, sys0) ∧
    training_step sys0 [PyVal.int 1, PyVal.int 2] 0 = Except.ok
      (PyVal.dict [("loss", PyVal.int 1),
        ("log", PyVal.dict [("train_loss", PyVal.int 1)])], sys0) :=
  ⟨rfl, training_step_is_common_step_with_log sys0 [PyVal.int 1, PyVal.int 2]
    0 (PyVal.int 1) rfl⟩

/-- C6: `configure_optimizers` returns the ordered pair
`(optimizer, scheduler)` when a scheduler was supplied, and the stored
optimizer reference alone otherwise; in both cases the state is unchanged
and nothing else is computed. -/
theorem configure_optimizers_cases (s : System) :
    (s.scheduler = PyVal.none → configure_optimizers s = (s.optimizer, s)) ∧
    (s.scheduler ≠ PyVal.none →
      configure_optimizers s = (PyVal.tuple [s.optimizer, s.scheduler], s)) := by
  refine ⟨fun h => ?_, fun h => ?_⟩
  · simp [configure_optimizers, h]
  · cases hs : s.scheduler <;>
      first
      | exact absurd hs h
      | simp [configure_optimizers, hs]

/-- Witness for C6: one instance without a scheduler, one with. -/
theorem configure_optimizers_cases_witness :
    configure_optimizers sys0 = (sys0.optimizer, sys0) ∧
    configure_optimizers sys1 =
      (PyVal.tuple [sys1.optimizer, sys1.scheduler], sys1) :=
  ⟨(configure_optimizers_cases sys0).1 rfl,
    (configure_optimizers_cases sys1).2 (by simp [sys1])⟩

/-- C8: `validation_end` on the empty output sequence does not return an
averaged-loss structure: `torch.stack` on the empty list raises, and that
error propagates. -/
theorem validation_end_empty_fails (s : System) :
    validation_end s [] =
      Except.error (PyErr.runtimeError "stack expects a non-empty TensorList") :=
  rfl

theorem bind_eq_ok {ε α β : Type} {x : Except ε α} {f : α → Except ε β}
    {b : β} (h : x >>= f = Except.ok b) :
    ∃ a, x = Except.ok a ∧ f a = Except.ok b := by
  cases x with
  | error e => exact Except.noConfusion h
  | ok a => exact ⟨a, rfl, h⟩

theorem lookup_losses_tensor_dicts (ls : List ℚ) :
    lookup_losses (ls.map fun l => PyVal.dict [("val_loss", PyVal.tensor l)]) =
      Except.ok (ls.map PyVal.tensor) := by
  induction ls with
  | nil => rfl
  | cons l ls ih =>
    show Except.bind
        (lookup_losses (ls.map fun l => PyVal.dict [("val_loss", PyVal.tensor l)]))
        (fun vs => Except.ok (PyVal.tensor l :: vs)) = _
    rw [ih]
    rfl

theorem to_scalars_tensors (ls : List ℚ) :
    to_scalars (ls.map PyVal.tensor) = Except.ok ls := by
  induction ls with
  | nil => rfl
  | cons l ls ih =>
    show Except.bind (to_scalars (ls.map PyVal.tensor))
        (fun qs => Except.ok (l :: qs)) = _
    rw [ih]
    rfl

/-- C4: over a non-empty sequence of validation results with losses
`[l1..lN]`, `validation_end` returns the structure whose primary
`val_loss` field is the arithmetic mean `sum(li)/N` and whose `log` and
`progress_bar` mappings each hold that same value under `val_loss`. -/
theorem validation_end_returns_mean (s : System) (ls : List ℚ)
    (h : ls ≠ []) :
    validation_end s
        (ls.map fun l => PyVal.dict [("val_loss", PyVal.tensor l)]) =
      Except.ok (PyVal.dict
        [("val_loss", PyVal.tensor (ls.sum / (ls.length : ℚ))),
         ("log", PyVal.dict
           [("val_loss", PyVal.tensor (ls.sum / (ls.length : ℚ)))]),
         ("progress_bar", PyVal.dict
           [("val_loss", PyVal.tensor (ls.sum / (ls.length : ℚ)))])], s) := by
  obtain ⟨a, as, rfl⟩ : ∃ a as, ls = a :: as := by
    cases ls with
    | nil => exact absurd rfl h
    | cons a as => exact ⟨a, as, rfl⟩
  unfold validation_end
  rw [lookup_losses_tensor_dicts]
  show Except.bind (torch_stack ((a :: as).map PyVal.tensor))
      (fun stacked => Except.ok (PyVal.dict
        [("val_loss", PyVal.tensor (torch_mean stacked)),
         ("log", PyVal.dict [("val_loss", PyVal.tensor (torch_mean stacked))]),
         ("progress_bar", PyVal.dict
           [("val_loss", PyVal.tensor (torch_mean stacked))])], s)) = _
  rw [show torch_stack ((a :: as).map PyVal.tensor) =
      to_scalars ((a :: as).map PyVal.tensor) from rfl]
  rw [to_scalars_tensors]
  rfl

/-- Witness for C4 at the loss list `[1, 2]`. -/
theorem validation_end_returns_mean_witness :
    ([(1 : ℚ), 2] ≠ []) ∧
    validation_end sys0
        ([(1 : ℚ), 2].map fun l => PyVal.dict [("val_loss", PyVal.tensor l)]) =
      Except.ok (PyVal.dict
        [("val_loss", PyVal.tensor ([(1 : ℚ), 2].sum / ([(1 : ℚ), 2].length : ℚ))),
         ("log", PyVal.dict
           [("val_loss", PyVal.tensor ([(1 : ℚ), 2].sum / ([(1 : ℚ), 2].length : ℚ)))]),
         ("progress_bar", PyVal.dict
           [("val_loss", PyVal.tensor ([(1 : ℚ), 2].sum / ([(1 : ℚ), 2].length : ℚ)))])],
        sys0) :=
  ⟨by simp, validation_end_returns_mean sys0 [(1 : ℚ), 2] (by simp)⟩

theorem dict_get?_dict_set_same (d : List (String × PyVal)) (k : String)
    (v : PyVal) : dict_get? (dict_set d k v) k = some v := by
  induction d with
  | nil => simp [dict_set, dict_get?, List.find?]
  | cons p rest ih =>
    by_cases hp : p.1 == k
    · simp [dict_set, hp, dict_get?, List.find?]
    · simpa [dict_set, hp, dict_get?, List.find?] using ih

theorem dict_get?_dict_set_other (d : List (String × PyVal)) (k k' : String)
    (v : PyVal) (hk : k' ≠ k) :
    dict_get? (dict_set d k v) k' = dict_get? d k' := by
  have h1 : (k == k') = false := by
    rw [beq_eq_false_iff_ne]
    exact Ne.symm hk
  induction d with
  | nil =>
    simp [dict_set, dict_get?, List.find?, h1]
  | cons p rest ih =>
    by_cases hp : p.1 == k
    · have hp' : p.1 = k := by simpa [beq_iff_eq] using hp
      have h2 : (p.1 == k') = false := by
        rw [beq_eq_false_iff_ne, hp']
        exact Ne.symm hk
      simp [dict_set, hp, dict_get?, List.find?, h1, h2]
    · by_cases hq : p.1 == k'
      · simp [dict_set, hp, dict_get?, List.find?, hq]
      · simpa [dict_set, hp, dict_get?, List.find?, hq] using ih

theorem dict_set_append_of_absent (d : List (String × PyVal)) (k : String)
    (v : PyVal) (h : dict_get? d k = Option.none) :
    dict_set d k v = d ++ [(k, v)] := by
  induction d with
  | nil => rfl
  | cons p rest ih =>
    by_cases hp : p.1 == k
    · exfalso
      simp [dict_get?, List.find?, hp] at h
    · have h' : dict_get? rest k = Option.none := by
        simpa [dict_get?, List.find?, hp] using h
      simp [dict_set, hp, ih h']

/-- C7 counterexample: with the stored configuration blob `"cfg"` and a
checkpoint that already holds a different value under the fixed key
`'training_config'`, `on_save_checkpoint` returns a checkpoint whose only
entry is the overwritten one — the pre-existing field is not preserved and
no field was added, contradicting the claim that all pre-existing fields
survive unchanged even when the fixed key is already present. -/
theorem on_save_checkpoint_overwrites_existing_key :
    (on_save_checkpoint sys0 [("training_config", PyVal.int 1)]).1 =
      [("training_config", PyVal.str "cfg")] ∧
    PyVal.str "cfg" ≠ PyVal.int 1 :=
  ⟨rfl, fun h => nomatch h⟩

/-- C7 (amended): `on_save_checkpoint` stores the configuration blob under
the fixed key `'training_config'` — appending a new final entry when the
key is absent, overwriting the existing value when it is present — leaves
every entry under any other key unchanged, and hands the adapter state
back unchanged. -/
theorem on_save_checkpoint_sets_training_config (s : System)
    (chk : List (String × PyVal)) :
    dict_get? (on_save_checkpoint s chk).1 "training_config" = some s.config ∧
    (∀ k, k ≠ "training_config" →
      dict_get? (on_save_checkpoint s chk).1 k = dict_get? chk k) ∧
    (dict_get? chk "training_config" = Option.none →
      (on_save_checkpoint s chk).1 = chk ++ [("training_config", s.config)]) ∧
    (on_save_checkpoint s chk).2 = s :=
  ⟨dict_get?_dict_set_same chk "training_config" s.config,
    fun k hk => dict_get?_dict_set_other chk "training_config" k s.config hk,
    fun h => dict_set_append_of_absent chk "training_config" s.config h,
    rfl⟩

/-- Witness for C7's amended theorem at a concrete checkpoint holding an
unrelated field. -/
theorem on_save_checkpoint_sets_training_config_witness :
    dict_get? (on_save_checkpoint sys0 [("epoch", PyVal.int 5)]).1
      "training_config" = some sys0.config ∧
    ("epoch" ≠ "training_config") ∧
    dict_get? (on_save_checkpoint sys0 [("epoch", PyVal.int 5)]).1 "epoch" =
      dict_get? [("epoch", PyVal.int 5)] "epoch" ∧
    dict_get? [("epoch", PyVal.int 5)] "training_config" = Option.none ∧
    (on_save_checkpoint sys0 [("epoch", PyVal.int 5)]).1 =
      [("epoch", PyVal.int 5)] ++ [("training_config", sys0.config)] :=
  ⟨(on_save_checkpoint_sets_training_config sys0 [("epoch", PyVal.int 5)]).1,
    by decide,
    (on_save_checkpoint_sets_training_config sys0
      [("epoch", PyVal.int 5)]).2.1 "epoch" (by decide),
    rfl,
    (on_save_checkpoint_sets_training_config sys0
      [("epoch", PyVal.int 5)]).2.2.1 rfl⟩

theorem unpack_data_state (s : System) (d : List PyVal)
    (r : PyVal × PyVal × PyVal) (s' : System)
    (h : unpack_data s d = Except.ok (r, s')) : s' = s := by
  rcases d with _ | ⟨a, _ | ⟨b, _ | ⟨c, _ | ⟨e, rest⟩⟩⟩⟩
  · exact Except.noConfusion h
  · exact Except.noConfusion h
  · injection h with h'
    injection h' with h1 h2
    exact h2.symm
  · injection h with h'
    injection h' with h1 h2
    exact h2.symm
  · exact Except.noConfusion h

theorem common_step_state (s : System) (b : List PyVal) (i : Int)
    (l : PyVal) (s' : System)
    (h : common_step s b i = Except.ok (l, s')) : s' = s := by
  rcases b with _ | ⟨a, _ | ⟨x, _ | ⟨y, _ | ⟨z, rest⟩⟩⟩⟩
  · exact Except.noConfusion h
  · exact Except.noConfusion h
  · have h0 : Except.ok (s.loss_compute x (s.model a) (PyVal.dict []), s) =
        (Except.ok (l, s') : Except PyErr (PyVal × System)) := h
    injection h0 with h'
    injection h' with h1 h2
    exact h2.symm
  · have h0 : Except.ok (s.loss_compute x (s.model a) y, s) =
        (Except.ok (l, s') : Except PyErr (PyVal × System)) := h
    injection h0 with h'
    injection h' with h1 h2
    exact h2.symm
  · exact Except.noConfusion h

theorem training_step_state (s : System) (b : List PyVal) (i : Int)
    (r : PyVal) (s' : System)
    (h : training_step s b i = Except.ok (r, s')) : s' = s := by
  unfold training_step at h
  obtain ⟨⟨loss, s₁⟩, h1, h2⟩ := bind_eq_ok h
  have h0 : Except.ok (PyVal.dict [("loss", loss),
      ("log", PyVal.dict [("train_loss", loss)])], s₁) =
        (Except.ok (r, s') : Except PyErr (PyVal × System)) := h2
  injection h0 with h'
  injection h' with ha hb
  exact hb.symm.trans (common_step_state s b i loss s₁ h1)

theorem validation_step_state (s : System) (b : List PyVal) (i : Int)
    (r : PyVal) (s' : System)
    (h : validation_step s b i = Except.ok (r, s')) : s' = s := by
  unfold validation_step at h
  obtain ⟨⟨loss, s₁⟩, h1, h2⟩ := bind_eq_ok h
  have h0 : Except.ok (PyVal.dict [("val_loss", loss)], s₁) =
        (Except.ok (r, s') : Except PyErr (PyVal × System)) := h2
  injection h0 with h'
  injection h' with ha hb
  exact hb.symm.trans (common_step_state s b i loss s₁ h1)

theorem validation_end_state (s : System) (outputs : List PyVal)
    (r : PyVal) (s' : System)
    (h : validation_end s outputs = Except.ok (r, s')) : s' = s := by
  unfold validation_end at h
  obtain ⟨vs, h1, h2⟩ := bind_eq_ok h
  obtain ⟨st, h3, h4⟩ := bind_eq_ok h2
  have h0 : Except.ok (PyVal.dict
      [("val_loss", PyVal.tensor (torch_mean st)),
       ("log", PyVal.dict [("val_loss", PyVal.tensor (torch_mean st))]),
       ("progress_bar",
         PyVal.dict [("val_loss", PyVal.tensor (torch_mean st))])], s) =
        (Except.ok (r, s') : Except PyErr (PyVal × System)) := h4
  injection h0 with h'
  injection h' with ha hb
  exact hb.symm

/-- C9: every operation other than construction hands the adapter's stored
fields back unchanged — the model, optimizer, loss evaluator, loaders,
scheduler and configuration blob are assigned only at construction, and
each method's state-passing translation returns exactly the state it
received. -/
theorem system_methods_stateless (s : System) :
    (∀ x, (forward s x).2 = s) ∧
    (∀ d r s', unpack_data s d = Except.ok (r, s') → s' = s) ∧
    (∀ b i l s', common_step s b i = Except.ok (l, s') → s' = s) ∧
    (∀ b i r s', training_step s b i = Except.ok (r, s') → s' = s) ∧
    (∀ b i r s', validation_step s b i = Except.ok (r, s') → s' = s) ∧
    (∀ o r s', validation_end s o = Except.ok (r, s') → s' = s) ∧
    (configure_optimizers s).2 = s ∧
    (train_dataloader s).2 = s ∧
    (val_dataloader s).2 = s ∧
    (∀ c, (on_save_checkpoint s c).2 = s) ∧
    (∀ b, (on_batch_start s b).2 = s) ∧
    (on_batch_end s).2 = s ∧
    (on_epoch_start s).2 = s ∧
    (on_epoch_end s).2 = s ∧
    (tng_dataloader s).2 = s := by
  refine ⟨fun x => rfl, unpack_data_state s, common_step_state s,
    training_step_state s, validation_step_state s, validation_end_state s,
    ?_, rfl, rfl, fun c => rfl, fun b => rfl, rfl, rfl, rfl, rfl⟩
  cases hs : s.scheduler <;> simp [configure_optimizers, hs]

/-- Witness for C9 at a concrete instance and concrete inputs. -/
theorem system_methods_stateless_witness :
    (forward sys0 (PyVal.int 5)).2 = sys0 ∧ sys0 = sys0 :=
  ⟨(system_methods_stateless sys0).1 (PyVal.int 5),
    (system_methods_stateless sys0).2.2.1 [PyVal.int 1, PyVal.int 2] 0
      (PyVal.int 1) sys0 rfl⟩
